import Mathlib

/-!
A shallow embedding of the `fsm` library (a per-user finite state machine
with pluggable state and data storage) and proofs of its specified
properties.

The repository carries two generations of the engine in its files:

* the current generation: a generic `FSM[K comparable, V any]` whose
  `Transition`, `Current`, `Reset`, `Set`, `Get`, `Delete` return errors and
  delegate to a `UserStateStorage` and a `DataStorage` interface, with
  default in-memory implementations `userStateStorage` (fields guarded by a
  mutex, map `Storage map[int64]StateID`, `Get` failing with
  `errNoUserState` when no entry exists) and `dataStorage`
  (map `Storage map[int64]map[any]any`, `Get` failing with `errNoUserData`
  when the user has no bag);
* the earlier generation: a non-generic `FSM` holding its maps inline,
  whose `Reset` deletes the entry, and which carries `MarshalJSON` and
  `UnmarshalJSON` (snapshot and restore of initial state id, user states
  and storage through one JSON document).

Both are embedded below: the current generation as `Fsm.FSM` specialized to
the default in-memory stores (the only configuration the verified claims
address), the earlier one as `Fsm.FSMold`.

Modelling conventions:

* Go maps become functions into `Option`; a missing key is `none` (the Go
  zero value of the map lookup).
* Go `error` results become `Option GoErr`; `none` is the nil error.
  `fmt.Errorf("...: %w", err)` wrapping is modelled by dedicated `GoErr`
  constructors carrying the wrapped error; the formatted message text is
  elided.
* The mutexes guard in-process memory only; every operation is atomic
  source code between lock and unlock, so the sequential embedding drops
  them.
* A callback has the Go type `func(ctx context.Context, args ...any) error`
  and is embedded as a function of the context and the argument list
  returning an optional error; the engine state is not an argument of that
  type, so a callback is modelled as leaving the stores untouched.
* `context.Context` carries no structure the engine inspects, so it is a
  unit-like type.
* JSON byte documents are modelled by `JSONDoc`: either a document that
  decodes to the marshalled record, or a malformed one on which decoding
  fails. The Go `encoding/json` package refuses interface-keyed maps: the
  encoder resolves `map[any]any` to its unsupported-type encoder and
  errors the moment a bag value is encoded, so `json.Marshal` of
  `storage map[int64]map[any]any` fails exactly when the outer map has an
  entry, returning nil bytes (here: a malformed document) and the error;
  symmetrically the decoder rejects any JSON object aimed at a
  `map[any]any` before reading its first key, so a document whose
  `storage` field has an entry fails to decode. The outer storage map of
  the earlier generation is therefore embedded as a finite association
  list, making the emptiness test the encoder performs observable.
-/

namespace Fsm

/-- StateID is a type for state identifier (Go: `type StateID string`). -/
abbrev StateID := String

/-- Go `int64` user identifiers. All operations on them are map lookups and
equality tests, so `Int` is a faithful carrier. -/
abbrev UserID := Int

/-- Dynamic Go values (`any`), as used for callback arguments and for the
keys and values of the earlier-generation data storage `map[any]any`. A
small closed universe suffices for every behaviour the engine exhibits:
the engine only stores, compares and returns these values. -/
inductive GoValue where
  | nil : GoValue
  | str : String → GoValue
  | int : Int → GoValue
  | bool : Bool → GoValue
deriving DecidableEq, Repr

/-- Go `error` values produced by the library. Wrapping constructors model
`fmt.Errorf("...: %w", err)` in the corresponding engine method; `other`
models an arbitrary error produced by user code such as a callback. -/
inductive GoErr where
  | noUserState : UserID → GoErr
  | noUserData : UserID → GoErr
  | setStateFailed : GoErr → GoErr
  | checkStateFailed : GoErr → GoErr
  | setInitialFailed : GoErr → GoErr
  | getStateFailed : GoErr → GoErr
  | callbackFailed : GoErr → GoErr
  | setDataFailed : GoErr → GoErr
  | getDataFailed : GoErr → GoErr
  | deleteDataFailed : GoErr → GoErr
  | decodeFailed : GoErr
  | unsupportedType : GoErr
  | other : String → GoErr
deriving DecidableEq, Repr

/-- Go `context.Context`: opaque to the engine, which only passes it
through to callbacks. -/
inductive Context where
  | mk : Context
deriving DecidableEq, Repr

/-- Callback is a function that will be called on state transition
(current generation, Go:
`type Callback func(ctx context.Context, args ...any) error`). -/
abbrev Callback := Context → List GoValue → Option GoErr

/-- userStateStorage is the default in-memory storage for user states
(current revision, field `Storage map[int64]StateID`). -/
structure userStateStorage where
  Storage : UserID → Option StateID

/-- initialUserStateStorage creates in memory storage for user state:
an empty map. -/
def initialUserStateStorage : userStateStorage :=
  { Storage := fun _ => none }

/-- Set sets user state to state storage: `u.Storage[userID] = stateID`,
returns nil error. -/
def userStateStorage.Set (u : userStateStorage) (userID : UserID)
    (stateID : StateID) : userStateStorage × Option GoErr :=
  ({ Storage := fun id => if id = userID then some stateID else u.Storage id },
   none)

/-- Exists checks whether the user state exists in state storage:
`_, ok := u.Storage[userID]; return ok, nil`. -/
def userStateStorage.Exists (u : userStateStorage) (userID : UserID) :
    Bool × Option GoErr :=
  ((u.Storage userID).isSome, none)

/-- Get gets user state from state storage (current revision): a missing
entry fails with `errNoUserState` wrapped with the userID; a present entry
is returned with nil error. -/
def userStateStorage.Get (u : userStateStorage) (userID : UserID) :
    StateID × Option GoErr :=
  match u.Storage userID with
  | none => ("", some (GoErr.noUserState userID))
  | some s => (s, none)

/-- Get of the superseded first revision of the state storage, kept in the
repository history: a missing entry returned the empty string with nil
error instead of failing. Embedded separately for comparison with the
current contract. -/
def userStateStorage.GetLegacy (u : userStateStorage) (userID : UserID) :
    StateID × Option GoErr :=
  match u.Storage userID with
  | none => ("", none)
  | some s => (s, none)

/-- dataStorage is the default in-memory storage for user data. The source
stores `map[int64]map[any]any`; the current engine generation types it by
the key and value parameters `K` and `V` of the engine, so the embedding is
parametric. A user bag lookup of an unset key yields the Go zero value nil,
modelled as `none`. -/
structure dataStorage (K V : Type) where
  Storage : UserID → Option (K → Option V)

/-- initialDataStorage creates in memory storage for user data: an
empty map. -/
def initialDataStorage (K V : Type) : dataStorage K V :=
  { Storage := fun _ => none }

/-- Set sets user data to data storage: the user bag is created lazily if
absent, then `s[key] = value`; always returns nil error. -/
def dataStorage.Set {K V : Type} [DecidableEq K] (d : dataStorage K V)
    (userID : UserID) (key : K) (value : V) : dataStorage K V × Option GoErr :=
  match d.Storage userID with
  | none =>
      ({ Storage := fun id =>
           if id = userID then
             some (fun k => if k = key then some value else none)
           else d.Storage id },
       none)
  | some bag =>
      ({ Storage := fun id =>
           if id = userID then
             some (fun k => if k = key then some value else bag k)
           else d.Storage id },
       none)

/-- Get gets user data from data storage: fails with `errNoUserData` if the
user has no bag; otherwise returns the bag lookup (the Go zero value nil,
here `none`, when the key is unset) with nil error. -/
def dataStorage.Get {K V : Type} (d : dataStorage K V) (userID : UserID)
    (key : K) : Option V × Option GoErr :=
  match d.Storage userID with
  | none => (none, some (GoErr.noUserData userID))
  | some bag => (bag key, none)

/-- Delete deletes user data from data storage: a no-op with nil error if
the user has no bag, otherwise removes the key from the bag. -/
def dataStorage.Delete {K V : Type} [DecidableEq K] (d : dataStorage K V)
    (userID : UserID) (key : K) : dataStorage K V × Option GoErr :=
  match d.Storage userID with
  | none => (d, none)
  | some bag =>
      ({ Storage := fun id =>
           if id = userID then
             some (fun k => if k = key then none else bag k)
           else d.Storage id },
       none)

/-- FSM is the current-generation finite state machine, specialized to the
default in-memory stores `userStateStorage` and `dataStorage` (the
configuration the verified claims address; the configuration options only
substitute other store implementations). -/
structure FSM (K V : Type) where
  initialStateID : StateID
  callbacks : StateID → Option Callback
  userStates : userStateStorage
  storage : dataStorage K V

/-- New creates a new FSM with the default in-memory stores, the given
initial state and the given callbacks. -/
def FSM.New {K V : Type} (initialStateName : StateID)
    (callbacks : StateID → Option Callback) : FSM K V :=
  { initialStateID := initialStateName
    callbacks := callbacks
    userStates := initialUserStateStorage
    storage := initialDataStorage K V }

/-- AddCallback adds a callback for a state, overwriting a previous one. -/
def FSM.AddCallback {K V : Type} (f : FSM K V) (stateID : StateID)
    (callback : Callback) : FSM K V :=
  { f with callbacks := fun s => if s = stateID then some callback
                                 else f.callbacks s }

/-- Transition transitions the user to a new state: it first commits the
target state through the state storage Set; on Set failure it returns the
wrapped error; otherwise it looks up the callback for the target state and,
if one is registered, invokes it and wraps a callback error. The committed
state is never rolled back. -/
def FSM.Transition {K V : Type} (f : FSM K V) (ctx : Context)
    (userID : UserID) (stateID : StateID) (args : List GoValue) :
    FSM K V × Option GoErr :=
  let setRes := f.userStates.Set userID stateID
  match setRes.2 with
  | some e => ({ f with userStates := setRes.1 },
               some (GoErr.setStateFailed e))
  | none =>
    let f1 : FSM K V := { f with userStates := setRes.1 }
    match f1.callbacks stateID with
    | none => (f1, none)
    | some cb =>
      match cb ctx args with
      | none => (f1, none)
      | some e => (f1, some (GoErr.callbackFailed e))

/-- Current returns the current state of the user: it checks Exists; when
no entry exists it materializes one by writing the initial state and
returns the initial state; when an entry exists it returns the stored
state via Get; store errors are wrapped. The result is the updated engine,
the state, and the error. -/
def FSM.Current {K V : Type} (f : FSM K V) (userID : UserID) :
    FSM K V × StateID × Option GoErr :=
  let exRes := f.userStates.Exists userID
  match exRes.2 with
  | some e => (f, "", some (GoErr.checkStateFailed e))
  | none =>
    if !exRes.1 then
      let setRes := f.userStates.Set userID f.initialStateID
      match setRes.2 with
      | some e => ({ f with userStates := setRes.1 }, "",
                   some (GoErr.setInitialFailed e))
      | none => ({ f with userStates := setRes.1 }, f.initialStateID, none)
    else
      let getRes := f.userStates.Get userID
      match getRes.2 with
      | some e => (f, "", some (GoErr.getStateFailed e))
      | none => (f, getRes.1, none)

/-- Reset resets the state of the user to the initial state
(current generation policy: overwrite the entry through Set). -/
def FSM.Reset {K V : Type} (f : FSM K V) (userID : UserID) :
    FSM K V × Option GoErr :=
  let setRes := f.userStates.Set userID f.initialStateID
  ({ f with userStates := setRes.1 }, setRes.2)

/-- Set sets a value to data storage by userID and key, wrapping a store
error. -/
def FSM.Set {K V : Type} [DecidableEq K] (f : FSM K V) (userID : UserID)
    (key : K) (value : V) : FSM K V × Option GoErr :=
  let setRes := f.storage.Set userID key value
  match setRes.2 with
  | some e => ({ f with storage := setRes.1 }, some (GoErr.setDataFailed e))
  | none => ({ f with storage := setRes.1 }, none)

/-- Get gets a value from data storage by userID and key, wrapping a store
error (and returning nil for the value in that case). -/
def FSM.Get {K V : Type} (f : FSM K V) (userID : UserID) (key : K) :
    Option V × Option GoErr :=
  let getRes := f.storage.Get userID key
  match getRes.2 with
  | some e => (none, some (GoErr.getDataFailed e))
  | none => (getRes.1, none)

/-- Delete deletes a value from data storage by userID and key, wrapping a
store error. -/
def FSM.Delete {K V : Type} [DecidableEq K] (f : FSM K V) (userID : UserID)
    (key : K) : FSM K V × Option GoErr :=
  let delRes := f.storage.Delete userID key
  match delRes.2 with
  | some e => ({ f with storage := delRes.1 },
               some (GoErr.deleteDataFailed e))
  | none => ({ f with storage := delRes.1 }, none)

/-- Callback of the earlier engine generation has the Go type
`func(f *FSM, args ...any)`: it receives the engine itself. No operation
verified below invokes one, so its presence in the registry is all the
embedding needs; it is kept as an opaque marker value. -/
inductive CallbackOld where
  | mk : CallbackOld

/-- The outer data storage map `storage map[int64]map[any]any` of the
earlier generation, embedded as a finite association list of user bags so
that the emptiness the JSON encoder tests is observable. The inner bags
keep lookup semantics as functions: the encoder rejects a bag by its type
before looking at its contents, so bag contents never influence
encoding. -/
abbrev OldStorage := List (UserID × (GoValue → Option GoValue))

/-- Lookup of the bag of a user in the outer storage map
(`s, ok := f.storage[userID]`). -/
def storageLookup (l : OldStorage) (userID : UserID) :
    Option (GoValue → Option GoValue) :=
  match l with
  | [] => none
  | (id, bag) :: rest =>
      if userID = id then some bag else storageLookup rest userID

/-- Replacement of the bag of a user in the outer storage map, modelling
the in-place mutation `s[key] = value` of the bag aliased from the map. -/
def storageUpdate (l : OldStorage) (userID : UserID)
    (bag : GoValue → Option GoValue) : OldStorage :=
  match l with
  | [] => []
  | (id, b) :: rest =>
      if id = userID then (id, bag) :: rest
      else (id, b) :: storageUpdate rest userID bag

/-- FSMold is the earlier-generation finite state machine: user states and
data are inline maps (`userStates map[int64]StateID`,
`storage map[int64]map[any]any`), `Reset` deletes the user entry, and
`MarshalJSON` and `UnmarshalJSON` snapshot and restore the whole mutable
state. -/
structure FSMold where
  initialStateID : StateID
  callbacks : StateID → Option CallbackOld
  userStates : UserID → Option StateID
  storage : OldStorage

/-- New creates a new earlier-generation FSM with empty maps. -/
def FSMold.New (initialStateName : StateID)
    (callbacks : StateID → Option CallbackOld) : FSMold :=
  { initialStateID := initialStateName
    callbacks := callbacks
    userStates := fun _ => none
    storage := [] }

/-- Current returns the current state of the user (earlier generation): a
missing entry is materialized with the initial state and the initial state
is returned; a present entry is returned unchanged. The result pairs the
updated engine with the state. -/
def FSMold.Current (f : FSMold) (userID : UserID) : FSMold × StateID :=
  match f.userStates userID with
  | none =>
      ({ f with userStates := fun id =>
           if id = userID then some f.initialStateID else f.userStates id },
       f.initialStateID)
  | some s => (f, s)

/-- Reset resets the state of the user to the initial state (earlier
generation policy: `delete(f.userStates, userID)`). -/
def FSMold.Reset (f : FSMold) (userID : UserID) : FSMold :=
  { f with userStates := fun id =>
      if id = userID then none else f.userStates id }

/-- Set sets a value for a key for a user (earlier generation): the bag is
created lazily, then `s[key] = value`. -/
def FSMold.Set (f : FSMold) (userID : UserID) (key value : GoValue) :
    FSMold :=
  match storageLookup f.storage userID with
  | none =>
      { f with storage :=
          ((userID, fun k => if k = key then some value else none)
            :: f.storage) }
  | some bag =>
      { f with storage :=
          (storageUpdate f.storage userID
            (fun k => if k = key then some value else bag k)) }

/-- Get gets a value for a key for a user (earlier generation): returns
`(nil, false)` when the user has no bag, otherwise the bag lookup together
with the `ok` flag of the Go map index. -/
def FSMold.Get (f : FSMold) (userID : UserID) (key : GoValue) :
    Option GoValue × Bool :=
  match storageLookup f.storage userID with
  | none => (none, false)
  | some bag => (bag key, (bag key).isSome)

/-- The record marshalled to and unmarshalled from JSON by the earlier
engine generation: fields `initial_state_id`, `user_states`, `storage`. -/
structure fsmResponse where
  InitialStateID : StateID
  UserStates : UserID → Option StateID
  Storage : OldStorage

/-- A JSON byte document, at the granularity the engine observes: either a
document that decodes to a response record `r`, or a malformed document on
which `json.Unmarshal` fails (this case also stands for the nil byte
slice `json.Marshal` returns together with an error). -/
inductive JSONDoc where
  | ok : fsmResponse → JSONDoc
  | malformed : JSONDoc

/-- MarshalJSON marshals the FSM to JSON. The `user_states` field
(`map[int64]StateID`) always encodes, but the `storage` field is
`map[int64]map[any]any` and `encoding/json` resolves the interface-keyed
`map[any]any` to its unsupported-type encoder: encoding fails with an
UnsupportedTypeError as soon as one bag value is reached, that is, exactly
when the outer storage map has an entry. On that failure Go returns nil
bytes and the error. -/
def FSMold.MarshalJSON (f : FSMold) : JSONDoc × Option GoErr :=
  match f.storage with
  | [] =>
      (JSONDoc.ok { InitialStateID := f.initialStateID
                    UserStates := f.userStates
                    Storage := f.storage },
       none)
  | _ :: _ => (JSONDoc.malformed, some GoErr.unsupportedType)

/-- UnmarshalJSON unmarshals the FSM from JSON into a local record: on any
decode failure the error is returned before any field of the engine is
assigned. Decoding fails on malformed bytes, and also whenever the
document carries a storage entry, because the decoder rejects a JSON
object aimed at the interface-keyed `map[any]any` before reading its first
key (the local record it partially filled is discarded). On success the
initial state id, the user states and the storage are all replaced by the
decoded record. -/
def FSMold.UnmarshalJSON (f : FSMold) (data : JSONDoc) :
    FSMold × Option GoErr :=
  match data with
  | JSONDoc.malformed => (f, some GoErr.decodeFailed)
  | JSONDoc.ok r =>
      match r.Storage with
      | _ :: _ => (f, some GoErr.decodeFailed)
      | [] =>
          ({ f with initialStateID := r.InitialStateID
                    userStates := r.UserStates
                    storage := r.Storage },
           none)

/-! Concrete fixtures used to evaluate the engine at specific inputs. -/

/-- A callback that always fails. -/
def cbFail : Callback := fun _ _ => some (GoErr.other "boom")

/-- A registry that registers the failing callback for every state. -/
def cbsFail : StateID → Option Callback := fun _ => some cbFail

/-- A registry with no callbacks at all. -/
def cbsNone : StateID → Option Callback := fun _ => none

/-- An engine whose every state has the failing callback. -/
def fsmFail : FSM String String := FSM.New "default" cbsFail

/-- An engine with no callbacks. -/
def fsmNoCb : FSM String String := FSM.New "default" cbsNone

/-- An engine with no callbacks in which user 5 already has state "b". -/
def fsmSeen : FSM String String :=
  { FSM.New "default" cbsNone with
      userStates := { Storage := fun id => if id = 5 then some "b" else none } }

/-- A data storage in which user 2 has a bag holding only the key "set". -/
def d0 : dataStorage String String :=
  { Storage := fun id =>
      if id = 2 then some (fun k => if k = "set" then some "v" else none)
      else none }

/-- A one-entry data bag for the earlier-generation engine. -/
def bag0 : GoValue → Option GoValue :=
  fun k => if k = GoValue.str "k" then some (GoValue.str "v") else none

/-- An earlier-generation engine in which user 1 has state "a" and the
bag `bag0`. -/
def f0old : FSMold :=
  { initialStateID := "default"
    callbacks := fun _ => none
    userStates := fun id => if id = 1 then some "a" else none
    storage := [(1, bag0)] }

/-- An earlier-generation engine in which user 1 has state "a" and the
data storage has no user entries. -/
def f1old : FSMold :=
  { initialStateID := "default"
    callbacks := fun _ => none
    userStates := fun id => if id = 1 then some "a" else none
    storage := [] }

/-! Characterization lemmas: closed forms of the engine operations, shared
by the claim proofs below. -/

/-- The engine returned by Transition always carries the committed target
state, in every branch: the state write precedes the callback lookup and
is never undone. -/
theorem transition_result_fst {K V : Type} (f : FSM K V) (ctx : Context)
    (userID : UserID) (stateID : StateID) (args : List GoValue) :
    (f.Transition ctx userID stateID args).1
      = { f with userStates := (f.userStates.Set userID stateID).1 } := by
  simp only [FSM.Transition, userStateStorage.Set]
  split
  · rfl
  · split <;> rfl

/-- The error returned by Transition is determined by the callback lookup
and the callback result alone. -/
theorem transition_result_snd {K V : Type} (f : FSM K V) (ctx : Context)
    (userID : UserID) (stateID : StateID) (args : List GoValue) :
    (f.Transition ctx userID stateID args).2
      = match f.callbacks stateID with
        | none => none
        | some cb =>
          match cb ctx args with
          | none => none
          | some e => some (GoErr.callbackFailed e) := by
  cases h : f.callbacks stateID with
  | none => simp [FSM.Transition, userStateStorage.Set, h]
  | some cb =>
    cases h2 : cb ctx args <;>
      simp [FSM.Transition, userStateStorage.Set, h, h2]

/-- Closed form of Current over the default state storage: a missing entry
is materialized with the initial state, a present entry is returned with
the engine unchanged, and no branch errors. -/
theorem current_char {K V : Type} (f : FSM K V) (userID : UserID) :
    f.Current userID
      = match f.userStates.Storage userID with
        | none =>
          ({ f with userStates := (f.userStates.Set userID f.initialStateID).1 },
           f.initialStateID, none)
        | some s => (f, s, none) := by
  cases h : f.userStates.Storage userID <;>
    simp [FSM.Current, userStateStorage.Exists, userStateStorage.Get,
      userStateStorage.Set, h]

/-- Closed form of Reset over the default state storage. -/
theorem reset_char {K V : Type} (f : FSM K V) (userID : UserID) :
    f.Reset userID
      = ({ f with userStates := (f.userStates.Set userID f.initialStateID).1 },
         none) := by
  rfl

/-- Lookup in the state storage after Set. -/
theorem set_storage_lookup (u : userStateStorage) (userID id : UserID)
    (stateID : StateID) :
    ((u.Set userID stateID).1).Storage id
      = if id = userID then some stateID else u.Storage id := by
  rfl

/-- Claim C1: for every user, target state and registered callback for the
target state that returns an error, Transition returns a non-nil error
wrapping the callback error, and the user state in the state store is the
target state after the call: the state write is performed before the
callback runs and is not undone when the callback fails. -/
theorem callback_failure_wrapped_state_committed {K V : Type} (f : FSM K V)
    (ctx : Context) (userID : UserID) (stateID : StateID)
    (args : List GoValue) (cb : Callback) (e : GoErr)
    (hcb : f.callbacks stateID = some cb) (he : cb ctx args = some e) :
    (f.Transition ctx userID stateID args).2
        = some (GoErr.callbackFailed e) ∧
    (f.Transition ctx userID stateID args).1.userStates.Storage userID
        = some stateID := by
  refine ⟨?_, ?_⟩
  · simp [transition_result_snd, hcb, he]
  · rw [transition_result_fst]
    simp [userStateStorage.Set]

/-- Witness for C1: transitioning user 7 into state "err" of the concrete
engine `fsmFail` fails with the wrapped callback error while the state
store nevertheless holds "err" for user 7. -/
theorem callback_failure_witness :
    (fsmFail.Transition Context.mk 7 "err" []).2
        = some (GoErr.callbackFailed (GoErr.other "boom")) ∧
    (fsmFail.Transition Context.mk 7 "err" []).1.userStates.Storage 7
        = some "err" :=
  callback_failure_wrapped_state_committed fsmFail Context.mk 7 "err" []
    cbFail (GoErr.other "boom") rfl rfl

/-- Claim C2: for a user with no state store entry, Current writes the
configured initial state for the user and returns it with nil error; a
repeated Current with no intervening change returns the same initial
state; for a user with an existing entry, Current returns it unchanged
and does not modify the engine. -/
theorem current_lazy_materialization {K V : Type} :
    (∀ (f : FSM K V) (userID : UserID),
      f.userStates.Storage userID = none →
        (f.Current userID).2.1 = f.initialStateID ∧
        (f.Current userID).2.2 = none ∧
        (f.Current userID).1.userStates.Storage userID
          = some f.initialStateID ∧
        ((f.Current userID).1.Current userID).2.1 = f.initialStateID) ∧
    (∀ (f : FSM K V) (userID : UserID) (s : StateID),
      f.userStates.Storage userID = some s →
        (f.Current userID).2.1 = s ∧
        (f.Current userID).2.2 = none ∧
        (f.Current userID).1 = f) := by
  constructor
  · intro f userID h
    simp [current_char, userStateStorage.Set, h]
  · intro f userID s h
    simp [current_char, h]

/-- Witness for C2: in the concrete engine `fsmNoCb` the unseen user 3 is
materialized at "default" and repeated Current agrees; in `fsmSeen` the
seen user 5 keeps state "b" and the engine is unchanged. -/
theorem current_lazy_materialization_witness :
    ((fsmNoCb.Current 3).2.1 = "default" ∧
     (fsmNoCb.Current 3).2.2 = none ∧
     (fsmNoCb.Current 3).1.userStates.Storage 3 = some "default" ∧
     ((fsmNoCb.Current 3).1.Current 3).2.1 = "default") ∧
    ((fsmSeen.Current 5).2.1 = "b" ∧
     (fsmSeen.Current 5).2.2 = none ∧
     (fsmSeen.Current 5).1 = fsmSeen) :=
  ⟨(current_lazy_materialization (K := String) (V := String)).1
      fsmNoCb 3 rfl,
   (current_lazy_materialization (K := String) (V := String)).2
      fsmSeen 5 "b" rfl⟩

/-- Claim C3: after a successful Transition of a user into any target
state, registered callback or not, Current returns that target state with
nil error; no transition-table validation restricts which target may
follow the previous state (the target and the prior engine are arbitrary). -/
theorem transition_then_current_returns_target {K V : Type} (f : FSM K V)
    (ctx : Context) (userID : UserID) (stateID : StateID)
    (args : List GoValue)
    (_hsucc : (f.Transition ctx userID stateID args).2 = none) :
    ((f.Transition ctx userID stateID args).1.Current userID).2.1
        = stateID ∧
    ((f.Transition ctx userID stateID args).1.Current userID).2.2
        = none := by
  rw [transition_result_fst]
  constructor <;> simp [current_char, userStateStorage.Set]

/-- Witness for C3: transitioning user 9 of `fsmNoCb` into the
unregistered state "anything" succeeds and Current then returns
"anything" with nil error. -/
theorem transition_then_current_witness :
    (fsmNoCb.Transition Context.mk 9 "anything" []).2 = none ∧
    ((fsmNoCb.Transition Context.mk 9 "anything" []).1.Current 9).2.1
        = "anything" ∧
    ((fsmNoCb.Transition Context.mk 9 "anything" []).1.Current 9).2.2
        = none :=
  ⟨rfl,
   transition_then_current_returns_target fsmNoCb Context.mk 9 "anything"
     [] rfl⟩

/-- Counterexample to claim C4 as stated: in the engine `f0old` user 1 has
a data bag, so `json.Marshal` fails on the interface-keyed bag type.
Snapshot returns nil bytes with an UnsupportedTypeError, restoring those
bytes into a fresh engine fails, and the resulting engine reproduces
neither the Current result of the present user 1 nor the Get result of
its present key "k". -/
theorem snapshot_restore_roundtrip_counterexample :
    (f0old.MarshalJSON).2 = some GoErr.unsupportedType ∧
    (((FSMold.New "init" (fun _ => none)).UnmarshalJSON
        (f0old.MarshalJSON).1).1.Current 1).2 ≠ (f0old.Current 1).2 ∧
    ((FSMold.New "init" (fun _ => none)).UnmarshalJSON
        (f0old.MarshalJSON).1).1.Get 1 (GoValue.str "k")
      ≠ f0old.Get 1 (GoValue.str "k") := by
  refine ⟨rfl, ?_, ?_⟩ <;> decide

/-- Claim C4 amended: when the data store has no user entries, Snapshot
succeeds, restoring the document into a fresh engine succeeds, the
Current result of every user present before the snapshot is reproduced,
and the Get result of every user and key is reproduced (with no bags
present both engines report absence everywhere). When any user has a data
bag, Snapshot itself fails with an encode error, because the serialized
format cannot represent the interface-keyed bags, so the round-trip is
only available for engines with an empty data store. -/
theorem snapshot_restore_roundtrip_empty_storage (f : FSMold)
    (i0 : StateID) (cbs : StateID → Option CallbackOld)
    (hempty : f.storage = []) :
    (f.MarshalJSON).2 = none ∧
    ((FSMold.New i0 cbs).UnmarshalJSON (f.MarshalJSON).1).2 = none ∧
    (∀ (u : UserID) (s : StateID), f.userStates u = some s →
      (((FSMold.New i0 cbs).UnmarshalJSON (f.MarshalJSON).1).1.Current u).2
        = (f.Current u).2) ∧
    (∀ (u : UserID) (k : GoValue),
      ((FSMold.New i0 cbs).UnmarshalJSON (f.MarshalJSON).1).1.Get u k
        = f.Get u k) := by
  refine ⟨?_, ?_, ?_, ?_⟩
  · simp [FSMold.MarshalJSON, hempty]
  · simp [FSMold.MarshalJSON, FSMold.UnmarshalJSON, hempty]
  · intro u s hs
    simp [FSMold.MarshalJSON, FSMold.UnmarshalJSON, FSMold.New,
      FSMold.Current, hempty, hs]
  · intro u k
    simp [FSMold.MarshalJSON, FSMold.UnmarshalJSON, FSMold.New,
      FSMold.Get, storageLookup, hempty]

/-- Witness for the amended C4: the concrete engine `f1old`, whose data
store is empty, round-trips: snapshot and restore succeed, the Current
result of the present user 1 agrees, and the Get result at user 1 and key
"k" agrees. -/
theorem snapshot_restore_roundtrip_empty_storage_witness :
    (f1old.MarshalJSON).2 = none ∧
    ((FSMold.New "init" (fun _ => none)).UnmarshalJSON
        (f1old.MarshalJSON).1).2 = none ∧
    (((FSMold.New "init" (fun _ => none)).UnmarshalJSON
        (f1old.MarshalJSON).1).1.Current 1).2 = (f1old.Current 1).2 ∧
    ((FSMold.New "init" (fun _ => none)).UnmarshalJSON
        (f1old.MarshalJSON).1).1.Get 1 (GoValue.str "k")
      = f1old.Get 1 (GoValue.str "k") :=
  ⟨(snapshot_restore_roundtrip_empty_storage f1old "init" (fun _ => none)
      rfl).1,
   (snapshot_restore_roundtrip_empty_storage f1old "init" (fun _ => none)
      rfl).2.1,
   (snapshot_restore_roundtrip_empty_storage f1old "init" (fun _ => none)
      rfl).2.2.1 1 "a" rfl,
   (snapshot_restore_roundtrip_empty_storage f1old "init" (fun _ => none)
      rfl).2.2.2 1 (GoValue.str "k")⟩

/-- Claim C5: when restoring from a document that fails to decode, the
error is returned before any field is assigned, so the initial state id,
the state store contents and the data store contents are all unchanged:
the whole engine is exactly what it was before the call. -/
theorem restore_decode_failure_leaves_engine_unchanged (f : FSMold)
    (data : JSONDoc) (hfail : (f.UnmarshalJSON data).2 ≠ none) :
    (f.UnmarshalJSON data).1 = f := by
  cases data with
  | malformed => rfl
  | ok r =>
    cases h : r.Storage with
    | nil => simp [FSMold.UnmarshalJSON, h] at hfail
    | cons p rest => simp [FSMold.UnmarshalJSON, h]

/-- Witness for C5: restoring the malformed document into the concrete
engine `f0old` fails and leaves the engine untouched. -/
theorem restore_decode_failure_witness :
    (f0old.UnmarshalJSON JSONDoc.malformed).2 ≠ none ∧
    (f0old.UnmarshalJSON JSONDoc.malformed).1 = f0old :=
  ⟨by simp [FSMold.UnmarshalJSON],
   restore_decode_failure_leaves_engine_unchanged f0old JSONDoc.malformed
     (by simp [FSMold.UnmarshalJSON])⟩

/-- Claim C6: in the current revision of the default state storage, Get of
a user with no entry fails with the NotFound error `errNoUserState` (the
empty string it also returns is accompanied by that error, never by a nil
error); conversely a Get that returns nil error comes from an existing
entry, whose value it returns. -/
theorem state_store_get_missing_fails_notfound (u : userStateStorage)
    (userID : UserID) :
    (u.Storage userID = none →
      u.Get userID = ("", some (GoErr.noUserState userID))) ∧
    ((u.Get userID).2 = none →
      ∃ s, u.Storage userID = some s ∧ (u.Get userID).1 = s) := by
  cases h : u.Storage userID <;> simp [userStateStorage.Get, h]

/-- Witness for C6: Get of the unseen user 3 on the empty default state
storage fails with the NotFound error. -/
theorem state_store_get_missing_witness :
    initialUserStateStorage.Get 3 = ("", some (GoErr.noUserState 3)) :=
  (state_store_get_missing_fails_notfound initialUserStateStorage 3).1 rfl

/-- Claim C7: the default data storage Get fails with the NotFound error
`errNoUserData` when the user has no bag at all, and returns the nil
absence sentinel with nil error when the bag exists but the key is unset;
the two outcomes are distinct and each is determined by the store
contents. -/
theorem data_store_get_missing_bag_vs_unset_key {K V : Type} :
    (∀ (d : dataStorage K V) (u : UserID) (k : K),
      d.Storage u = none →
        d.Get u k = (none, some (GoErr.noUserData u))) ∧
    (∀ (d : dataStorage K V) (u : UserID) (k : K) (bag : K → Option V),
      d.Storage u = some bag → bag k = none →
        d.Get u k = (none, none)) := by
  constructor
  · intro d u k h
    simp [dataStorage.Get, h]
  · intro d u k bag h hk
    simp [dataStorage.Get, h, hk]

/-- Witness for C7: on the concrete storage `d0`, user 1 has no bag and
Get fails with NotFound, while user 2 has a bag without the key "unset"
and Get returns the nil sentinel with nil error. -/
theorem data_store_get_witness :
    d0.Get 1 "x" = (none, some (GoErr.noUserData 1)) ∧
    d0.Get 2 "unset" = (none, none) :=
  ⟨(data_store_get_missing_bag_vs_unset_key (K := String)
      (V := String)).1 d0 1 "x" rfl,
   (data_store_get_missing_bag_vs_unset_key (K := String)
      (V := String)).2 d0 2 "unset"
     (fun k => if k = "set" then some "v" else none) rfl rfl⟩

/-- Claim C8: after Reset of a user succeeds, Current returns the
configured initial state, under both Reset policies present in the
repository: the current generation overwrites the entry with the initial
state, the earlier generation deletes the entry and Current
re-materializes the initial state. -/
theorem reset_then_current_returns_initial {K V : Type} :
    (∀ (f : FSM K V) (userID : UserID),
      (f.Reset userID).2 = none ∧
      ((f.Reset userID).1.Current userID).2.1 = f.initialStateID ∧
      ((f.Reset userID).1.Current userID).2.2 = none) ∧
    (∀ (g : FSMold) (userID : UserID),
      ((g.Reset userID).Current userID).2 = g.initialStateID) := by
  constructor
  · intro f userID
    refine ⟨rfl, ?_, ?_⟩ <;>
      simp [reset_char, current_char, userStateStorage.Set]
  · intro g userID
    simp [FSMold.Reset, FSMold.Current]

/-- Claim C9: transitioning a user into a state with no registered
callback succeeds, and its only effect is the state entry of that user:
every other user keeps its state store entry and the data store, the
callback registry and the initial state id are unchanged. -/
theorem transition_no_callback_frame {K V : Type} (f : FSM K V)
    (ctx : Context) (userID : UserID) (stateID : StateID)
    (args : List GoValue) (hcb : f.callbacks stateID = none) :
    (f.Transition ctx userID stateID args).2 = none ∧
    (f.Transition ctx userID stateID args).1.userStates.Storage userID
        = some stateID ∧
    (∀ u2, u2 ≠ userID →
      (f.Transition ctx userID stateID args).1.userStates.Storage u2
        = f.userStates.Storage u2) ∧
    (f.Transition ctx userID stateID args).1.storage = f.storage ∧
    (f.Transition ctx userID stateID args).1.callbacks = f.callbacks ∧
    (f.Transition ctx userID stateID args).1.initialStateID
        = f.initialStateID := by
  refine ⟨?_, ?_, ?_, ?_, ?_, ?_⟩
  · simp [transition_result_snd, hcb]
  · rw [transition_result_fst]
    simp [userStateStorage.Set]
  · intro u2 h2
    rw [transition_result_fst]
    simp [userStateStorage.Set, h2]
  · rw [transition_result_fst]
  · rw [transition_result_fst]
  · rw [transition_result_fst]

/-- Witness for C9: transitioning user 4 of `fsmNoCb` into the
unregistered state "s1" succeeds, sets the entry of user 4, and leaves the
entry of user 8 and the data store unchanged. -/
theorem transition_no_callback_witness :
    (fsmNoCb.Transition Context.mk 4 "s1" []).2 = none ∧
    (fsmNoCb.Transition Context.mk 4 "s1" []).1.userStates.Storage 4
        = some "s1" ∧
    (fsmNoCb.Transition Context.mk 4 "s1" []).1.userStates.Storage 8
        = fsmNoCb.userStates.Storage 8 ∧
    (fsmNoCb.Transition Context.mk 4 "s1" []).1.storage
        = fsmNoCb.storage :=
  ⟨(transition_no_callback_frame fsmNoCb Context.mk 4 "s1" [] rfl).1,
   (transition_no_callback_frame fsmNoCb Context.mk 4 "s1" [] rfl).2.1,
   (transition_no_callback_frame fsmNoCb Context.mk 4 "s1" [] rfl).2.2.1
     8 (by decide),
   (transition_no_callback_frame fsmNoCb Context.mk 4 "s1" [] rfl).2.2.2.1⟩

/-- Claim C10: the default in-memory state storage Set and Exists always
return a nil error; consequently Current and Reset never return a non-nil
error, and Transition never returns a non-nil error when no callback is
registered for the target state: under the default configuration the
error branches of these engine operations are unreachable. -/
theorem default_stores_engine_ops_never_error {K V : Type} :
    (∀ (u : userStateStorage) (userID : UserID) (s : StateID),
      (u.Set userID s).2 = none) ∧
    (∀ (u : userStateStorage) (userID : UserID),
      (u.Exists userID).2 = none) ∧
    (∀ (f : FSM K V) (userID : UserID), (f.Current userID).2.2 = none) ∧
    (∀ (f : FSM K V) (userID : UserID), (f.Reset userID).2 = none) ∧
    (∀ (f : FSM K V) (ctx : Context) (userID : UserID)
       (stateID : StateID) (args : List GoValue),
      f.callbacks stateID = none →
        (f.Transition ctx userID stateID args).2 = none) := by
  refine ⟨fun _ _ _ => rfl, fun _ _ => rfl, ?_, fun _ _ => rfl, ?_⟩
  · intro f userID
    cases h : f.userStates.Storage userID <;> simp [current_char, h]
  · intro f ctx userID stateID args hcb
    simp [transition_result_snd, hcb]

/-- Witness for C10: every operation evaluated on the concrete default
stores and the concrete engine `fsmNoCb` returns a nil error. -/
theorem default_stores_never_error_witness :
    (initialUserStateStorage.Set 1 "a").2 = none ∧
    (initialUserStateStorage.Exists 1).2 = none ∧
    (fsmNoCb.Current 1).2.2 = none ∧
    (fsmNoCb.Reset 1).2 = none ∧
    (fsmNoCb.Transition Context.mk 1 "x" []).2 = none :=
  ⟨(default_stores_engine_ops_never_error (K := String)
      (V := String)).1 initialUserStateStorage 1 "a",
   (default_stores_engine_ops_never_error (K := String)
      (V := String)).2.1 initialUserStateStorage 1,
   (default_stores_engine_ops_never_error (K := String)
      (V := String)).2.2.1 fsmNoCb 1,
   (default_stores_engine_ops_never_error (K := String)
      (V := String)).2.2.2.1 fsmNoCb 1,
   (default_stores_engine_ops_never_error (K := String)
      (V := String)).2.2.2.2 fsmNoCb Context.mk 1 "x" [] rfl⟩

end Fsm
